import Mathlib

/-!
Verification of `src/script.py` from CarlosGiles/VariablesDeEntornoPython.

The script (after its three imports: `os`, `dotenv.load_dotenv`,
`json`) is:
```
load_dotenv()

credentials_path = os.getenv("GOOGLE_APPLICATION_CREDENTIALS")

with open(credentials_path, 'r') as f:
    google_credentials = json.load(f)

print("Credenciales de Google:", google_credentials)
```

We give a shallow embedding: the process environment, the `.env` file and
the file system are association lists; `json.load` is modelled by an
executable fuel-based JSON parser (integer numerals, the common escape
sequences; enough for every document the spec mentions); the run of the
script is a pure function producing the outcome (a value or the Python
exception that is raised) together with a trace of the observable events
(file-system access, handle acquisition and release, parsing, printing).
-/

namespace Script

/-- Parsed JSON documents, as produced by `json.load`: Python `None`,
booleans, integers, strings, lists and dicts (kept as key-value lists in
file order). -/
inductive Json where
  | null : Json
  | bool (b : Bool) : Json
  | num (n : Int) : Json
  | str (s : String) : Json
  | arr (items : List Json) : Json
  | obj (members : List (String × Json)) : Json
deriving Repr

/-- The four whitespace characters JSON allows between tokens. -/
def wsChars : List Char := [' ', '\t', '\n', '\r']

/-- Drop leading JSON whitespace. -/
def skipWs (cs : List Char) : List Char :=
  cs.dropWhile wsChars.contains

/-- The escape table for JSON strings: each escape character (the one
after the backslash) with the character it denotes. Escapes outside the
table (notably `\u`) are not covered by the model. -/
def escTable : List (Char × Char) :=
  [('"', '"'), ('\\', '\\'), ('/', '/'), ('n', '\n'), ('t', '\t'),
   ('r', '\r'), ('b', Char.ofNat 8), ('f', Char.ofNat 12)]

/-- Translation of a JSON string escape character via the table. -/
def escChar (e : Char) : Option Char :=
  (escTable.find? (fun p => p.1 == e)).map Prod.snd

/-- Parse the body of a JSON string literal (after the opening quote),
returning the decoded characters and the remaining input after the closing
quote. -/
def parseStringBody : List Char → Option (List Char × List Char)
  | [] => none
  | '"' :: rest => some ([], rest)
  | '\\' :: e :: rest => do
      let c ← escChar e
      let (s, r) ← parseStringBody rest
      pure (c :: s, r)
  | '\\' :: [] => none
  | c :: rest => do
      let (s, r) ← parseStringBody rest
      pure (c :: s, r)

/-- Accumulate a run of decimal digits into a natural number. -/
def parseDigits : Nat → List Char → Nat × List Char
  | acc, c :: cs =>
      if c.isDigit then parseDigits (acc * 10 + (c.toNat - '0'.toNat)) cs
      else (acc, c :: cs)
  | acc, [] => (acc, [])

/-- Parse a JSON integer numeral: an optional minus sign followed by at
least one digit. -/
def parseIntLit : List Char → Option (Int × List Char)
  | '-' :: c :: cs =>
      if c.isDigit then
        let (n, rest) := parseDigits 0 (c :: cs)
        some (-(n : Int), rest)
      else none
  | c :: cs =>
      if c.isDigit then
        let (n, rest) := parseDigits 0 (c :: cs)
        some ((n : Int), rest)
      else none
  | [] => none

mutual

/-- Parse one JSON value from the input (leading whitespace allowed),
returning it and the remaining input; fuel-bounded recursion. -/
def parseValue : Nat → List Char → Option (Json × List Char)
  | 0, _ => none
  | Nat.succ fuel, cs =>
      match skipWs cs with
      | 'n' :: 'u' :: 'l' :: 'l' :: rest => some (.null, rest)
      | 't' :: 'r' :: 'u' :: 'e' :: rest => some (.bool true, rest)
      | 'f' :: 'a' :: 'l' :: 's' :: 'e' :: rest => some (.bool false, rest)
      | '"' :: rest => do
          let (s, r) ← parseStringBody rest
          pure (.str (String.mk s), r)
      | '[' :: rest =>
          (match skipWs rest with
           | ']' :: r => some (.arr [], r)
           | _ => do
               let (items, r) ← parseElems fuel rest
               pure (.arr items, r))
      | '{' :: rest =>
          (match skipWs rest with
           | '}' :: r => some (.obj [], r)
           | _ => do
               let (members, r) ← parseMembers fuel rest
               pure (.obj members, r))
      | other => do
          let (n, rest) ← parseIntLit other
          pure (.num n, rest)

/-- Parse a nonempty comma-separated list of JSON values and the closing
square bracket. -/
def parseElems : Nat → List Char → Option (List Json × List Char)
  | 0, _ => none
  | Nat.succ fuel, cs => do
      let (v, rest) ← parseValue fuel cs
      match skipWs rest with
      | ',' :: r => do
          let (vs, r2) ← parseElems fuel r
          pure (v :: vs, r2)
      | ']' :: r => pure ([v], r)
      | _ => none

/-- Parse a nonempty comma-separated list of `"key": value` members and
the closing curly bracket. -/
def parseMembers : Nat → List Char → Option (List (String × Json) × List Char)
  | 0, _ => none
  | Nat.succ fuel, cs => do
      match skipWs cs with
      | '"' :: rest => do
          let (k, r1) ← parseStringBody rest
          match skipWs r1 with
          | ':' :: r2 => do
              let (v, r3) ← parseValue fuel r2
              match skipWs r3 with
              | ',' :: r4 => do
                  let (ms, r5) ← parseMembers fuel r4
                  pure ((String.mk k, v) :: ms, r5)
              | '}' :: r4 => pure ([(String.mk k, v)], r4)
              | _ => none
          | _ => none
      | _ => none

end

/-- Model of Python `json.load` applied to the full contents of the file:
parse exactly one JSON document, allowing surrounding whitespace and
rejecting trailing data; `none` models `json.JSONDecodeError`. -/
def json_load (contents : String) : Option Json :=
  match parseValue (contents.length * 2 + 2) contents.data with
  | some (v, rest) => if skipWs rest = [] then some v else none
  | none => none

/-- An association list mapping names to string values: used both for the
process environment and for the variable definitions of a `.env` file, and
(with paths as keys) for the readable files of the file system. -/
abbrev Bindings := List (String × String)

/-- First value bound to `k`, if any (`os.getenv` on an environment,
reading a file on a file system). -/
def lookup (bs : Bindings) (k : String) : Option String :=
  match bs with
  | [] => none
  | (k', v) :: rest => if k' = k then some v else lookup rest k

/-- Model of python-dotenv `load_dotenv()` with its default
`override=False`: every definition of the `.env` file whose key is not
already present in the process environment is added to it; keys already
present keep their process-environment value. -/
def load_dotenv (procEnv dotenvFile : Bindings) : Bindings :=
  procEnv ++ dotenvFile.filter (fun kv => (lookup procEnv kv.1).isNone)

/-- The Python exceptions the script can raise, each tagged by the line
that raises it. -/
inductive PyErr where
  | typeErrorNonePath : PyErr
  | fileNotFoundError : PyErr
  | jsonDecodeError : PyErr
deriving Repr, DecidableEq

/-- Observable events of a run, in order of occurrence. -/
inductive Event where
  | openCall (path : String) : Event
  | handleAcquired : Event
  | jsonLoadCall : Event
  | handleReleased : Event
  | printed (label : String) (doc : Json) : Event

/-- The run of `script.py` as a pure function of the process environment,
the `.env` file and the file system: the final outcome (the parsed
credentials on success, the raised exception on failure) paired with the
trace of observable events.

Line by line: `load_dotenv()` merges the `.env` file into the environment;
`os.getenv` returns the value or `None`; `open(credentials_path, 'r')`
raises `TypeError` when the path is `None` (before touching the file
system) and `FileNotFoundError` when no readable file is at the path;
inside the `with` block `json.load(f)` parses the contents, raising
`json.JSONDecodeError` on invalid data; the `with` statement releases the
handle on both the normal and the raising exit of the block; finally
`print` emits the document with its label. -/
def runScript (procEnv dotenvFile fs : Bindings) :
    Except PyErr Json × List Event :=
  let env := load_dotenv procEnv dotenvFile
  match lookup env "GOOGLE_APPLICATION_CREDENTIALS" with
  | none => (.error .typeErrorNonePath, [])
  | some path =>
    match lookup fs path with
    | none => (.error .fileNotFoundError, [.openCall path])
    | some contents =>
      match json_load contents with
      | none =>
          (.error .jsonDecodeError,
           [.openCall path, .handleAcquired, .jsonLoadCall, .handleReleased])
      | some doc =>
          (.ok doc,
           [.openCall path, .handleAcquired, .jsonLoadCall, .handleReleased,
            .printed "Credenciales de Google:" doc])

/-- Modelled from the spec: the error taxonomy of §7, as the class each
raised Python exception falls in. `TypeError` from `open(None, 'r')` is
the failure caused by absent configuration; `FileNotFoundError` is a
file-access failure; `json.JSONDecodeError` is a malformed-data
failure. -/
inductive Condition where
  | MissingConfiguration : Condition
  | FileAccessError : Condition
  | MalformedDataError : Condition
deriving Repr, DecidableEq

/-- Modelled from the spec: which condition of the §7 taxonomy a raised
exception realises. -/
def classify : PyErr → Condition
  | .typeErrorNonePath => .MissingConfiguration
  | .fileNotFoundError => .FileAccessError
  | .jsonDecodeError => .MalformedDataError

/-- Number of `handleAcquired` events in a trace. -/
def countAcquired : List Event → Nat
  | [] => 0
  | .handleAcquired :: rest => countAcquired rest + 1
  | _ :: rest => countAcquired rest

/-- Number of `handleReleased` events in a trace. -/
def countReleased : List Event → Nat
  | [] => 0
  | .handleReleased :: rest => countReleased rest + 1
  | _ :: rest => countReleased rest

/-- The label the script passes to `print` next to the document. -/
def printLabel : String := "Credenciales de Google:"

/-- The name of the environment variable the script reads. -/
def credsVar : String := "GOOGLE_APPLICATION_CREDENTIALS"

theorem lookup_append_of_none {p : Bindings} (q : Bindings) {k : String}
    (h : lookup p k = none) : lookup (p ++ q) k = lookup q k := by
  induction p with
  | nil => rfl
  | cons kv rest ih =>
      obtain ⟨k', v⟩ := kv
      by_cases hk : k' = k
      · simp [lookup, hk] at h
      · simp only [List.cons_append, lookup, if_neg hk] at h ⊢
        exact ih h

theorem lookup_append_of_some {p : Bindings} (q : Bindings) {k : String}
    {v : String} (h : lookup p k = some v) : lookup (p ++ q) k = some v := by
  induction p with
  | nil => simp [lookup] at h
  | cons kv rest ih =>
      obtain ⟨k', v'⟩ := kv
      by_cases hk : k' = k
      · simp only [lookup, if_pos hk] at h
        simp [lookup, if_pos hk, h]
      · simp only [List.cons_append, lookup, if_neg hk] at h ⊢
        exact ih h

theorem lookup_filter_isNone {p : Bindings} (d : Bindings) {k : String}
    (h : lookup p k = none) :
    lookup (d.filter (fun kv => (lookup p kv.1).isNone)) k = lookup d k := by
  induction d with
  | nil => rfl
  | cons kv rest ih =>
      obtain ⟨k', v'⟩ := kv
      by_cases hk : k' = k
      · subst hk
        simp [List.filter, h, lookup, ih]
      · by_cases hp : (lookup p k').isNone
        · simp [List.filter, hp, lookup, if_neg hk, ih]
        · simp [List.filter, hp, lookup, if_neg hk, ih]

/-- Claim C1: if `GOOGLE_APPLICATION_CREDENTIALS` is unset (also after the
`.env` merge), the run fails, the raised exception realises the
`MissingConfiguration` condition, and no file access happens: the trace is
empty, so in particular no `openCall` event occurs. -/
theorem unset_var_missing_configuration_no_file_access
    (procEnv dotenvFile fs : Bindings)
    (h : lookup (load_dotenv procEnv dotenvFile) credsVar = none) :
    runScript procEnv dotenvFile fs = (.error .typeErrorNonePath, []) ∧
    classify .typeErrorNonePath = .MissingConfiguration ∧
    ∀ path, Event.openCall path ∉ (runScript procEnv dotenvFile fs).2 := by
  simp only [credsVar] at h
  refine ⟨by simp only [runScript, h], rfl, ?_⟩
  intro path
  simp [runScript, h]

/-- Witness for C1 at a concrete input: empty environment, empty `.env`
file, empty file system. -/
theorem unset_var_missing_configuration_no_file_access_witness :
    runScript [] [] [] = (.error .typeErrorNonePath, []) ∧
    classify .typeErrorNonePath = .MissingConfiguration ∧
    ∀ path, Event.openCall path ∉ (runScript [] [] []).2 :=
  unset_var_missing_configuration_no_file_access [] [] [] rfl

/-- Claim C2: when the variable resolves to a path, the file system holds
contents at that path, and the contents parse as a JSON document `doc`,
the run succeeds with exactly `doc` and prints exactly `doc` (round-trip
fidelity: the returned and printed document is the parsed structure of the
source file's contents). -/
theorem valid_file_round_trip
    (procEnv dotenvFile fs : Bindings) (path contents : String) (doc : Json)
    (h1 : lookup (load_dotenv procEnv dotenvFile) credsVar = some path)
    (h2 : lookup fs path = some contents)
    (h3 : json_load contents = some doc) :
    runScript procEnv dotenvFile fs =
      (.ok doc,
       [.openCall path, .handleAcquired, .jsonLoadCall, .handleReleased,
        .printed printLabel doc]) := by
  simp only [credsVar] at h1
  simp only [runScript, printLabel, h1, h2, h3]

/-- Witness for C2 at a concrete input. -/
theorem valid_file_round_trip_witness :
    runScript [("GOOGLE_APPLICATION_CREDENTIALS", "creds.json")] []
        [("creds.json", "\x7b\"a\": 1\x7d")] =
      (.ok (.obj [("a", .num 1)]),
       [.openCall "creds.json", .handleAcquired, .jsonLoadCall,
        .handleReleased, .printed printLabel (.obj [("a", .num 1)])]) :=
  valid_file_round_trip _ _ _ "creds.json" "\x7b\"a\": 1\x7d" (.obj [("a", .num 1)])
    rfl rfl rfl

/-- Claim C3: when the variable resolves to a path but no readable file is
at that path, the run fails with `FileNotFoundError`, which realises the
`FileAccessError` condition, and the parse step is never reached: no
`jsonLoadCall` event occurs in the trace. -/
theorem missing_file_access_error_no_parse
    (procEnv dotenvFile fs : Bindings) (path : String)
    (h1 : lookup (load_dotenv procEnv dotenvFile) credsVar = some path)
    (h2 : lookup fs path = none) :
    runScript procEnv dotenvFile fs = (.error .fileNotFoundError, [.openCall path]) ∧
    classify .fileNotFoundError = .FileAccessError ∧
    Event.jsonLoadCall ∉ (runScript procEnv dotenvFile fs).2 := by
  simp only [credsVar] at h1
  refine ⟨by simp only [runScript, h1, h2], rfl, ?_⟩
  simp [runScript, h1, h2]

/-- Witness for C3 at a concrete input. -/
theorem missing_file_access_error_no_parse_witness :
    runScript [("GOOGLE_APPLICATION_CREDENTIALS", "nope.json")] [] [] =
      (.error .fileNotFoundError, [.openCall "nope.json"]) ∧
    classify .fileNotFoundError = .FileAccessError ∧
    Event.jsonLoadCall ∉
      (runScript [("GOOGLE_APPLICATION_CREDENTIALS", "nope.json")] [] []).2 :=
  missing_file_access_error_no_parse _ _ _ "nope.json" rfl rfl

/-- Claim C4: when the file exists but its contents do not parse as JSON,
the run fails with `json.JSONDecodeError`, which realises the
`MalformedDataError` condition, and no document is printed: no `printed`
event occurs in the trace. -/
theorem invalid_json_malformed_data_no_output
    (procEnv dotenvFile fs : Bindings) (path contents : String)
    (h1 : lookup (load_dotenv procEnv dotenvFile) credsVar = some path)
    (h2 : lookup fs path = some contents)
    (h3 : json_load contents = none) :
    runScript procEnv dotenvFile fs =
      (.error .jsonDecodeError,
       [.openCall path, .handleAcquired, .jsonLoadCall, .handleReleased]) ∧
    classify .jsonDecodeError = .MalformedDataError ∧
    ∀ label doc, Event.printed label doc ∉ (runScript procEnv dotenvFile fs).2 := by
  simp only [credsVar] at h1
  refine ⟨by simp only [runScript, h1, h2, h3], rfl, ?_⟩
  intro label doc
  simp [runScript, h1, h2, h3]

/-- Witness for C4 at a concrete input. -/
theorem invalid_json_malformed_data_no_output_witness :
    runScript [("GOOGLE_APPLICATION_CREDENTIALS", "bad.json")] []
        [("bad.json", "not json")] =
      (.error .jsonDecodeError,
       [.openCall "bad.json", .handleAcquired, .jsonLoadCall, .handleReleased]) ∧
    classify .jsonDecodeError = .MalformedDataError ∧
    ∀ label doc, Event.printed label doc ∉
      (runScript [("GOOGLE_APPLICATION_CREDENTIALS", "bad.json")] []
        [("bad.json", "not json")]).2 :=
  invalid_json_malformed_data_no_output _ _ _ "bad.json" "not json" rfl rfl rfl

/-- Counterexample to claim C5: with `GOOGLE_APPLICATION_CREDENTIALS` set
to the empty string, the script passes `""` to `open`, which fails as a
file-access failure (`FileNotFoundError`, realising `FileAccessError`),
not as the missing-configuration failure the claim asserts; the trace even
records a file access. -/
theorem empty_value_counterexample :
    (runScript [("GOOGLE_APPLICATION_CREDENTIALS", "")] [] []).1 =
      .error .fileNotFoundError ∧
    classify .fileNotFoundError ≠ .MissingConfiguration ∧
    (runScript [("GOOGLE_APPLICATION_CREDENTIALS", "")] [] []).2 =
      [.openCall ""] :=
  ⟨rfl, by decide, rfl⟩

/-- Claim C5 as amended: if the environment variable is set but its value
is the empty string (and, as on a real file system, no readable file has
the empty path), the loader fails with the `FileAccessError` condition
raised by `open` — the empty value is treated as a path, not like
unset. -/
theorem empty_value_fails_as_file_access
    (procEnv dotenvFile fs : Bindings)
    (h1 : lookup (load_dotenv procEnv dotenvFile) credsVar = some "")
    (h2 : lookup fs "" = none) :
    runScript procEnv dotenvFile fs = (.error .fileNotFoundError, [.openCall ""]) ∧
    classify .fileNotFoundError = .FileAccessError := by
  simp only [credsVar] at h1
  exact ⟨by simp only [runScript, h1, h2], rfl⟩

/-- Witness for the amended C5 at a concrete input. -/
theorem empty_value_fails_as_file_access_witness :
    runScript [("GOOGLE_APPLICATION_CREDENTIALS", "")] [] [] =
      (.error .fileNotFoundError, [.openCall ""]) ∧
    classify .fileNotFoundError = .FileAccessError :=
  empty_value_fails_as_file_access _ _ _ rfl rfl

/-- Claim C6: with the variable pointing at a file containing exactly
`{"type": "service_account", "project_id": "x"}`, the loader returns the
mapping with exactly the keys `type` and `project_id` bound to
`"service_account"` and `"x"`, and prints it. -/
theorem service_account_scenario :
    runScript [("GOOGLE_APPLICATION_CREDENTIALS", "credentials.json")] []
        [("credentials.json",
          "\x7b\"type\": \"service_account\", \"project_id\": \"x\"\x7d")] =
      (.ok (.obj [("type", .str "service_account"),
                  ("project_id", .str "x")]),
       [.openCall "credentials.json", .handleAcquired, .jsonLoadCall,
        .handleReleased,
        .printed printLabel
          (.obj [("type", .str "service_account"),
                 ("project_id", .str "x")])]) := rfl

/-- Claim C7: on every execution path the number of handle acquisitions in
the trace equals the number of releases, and a handle is acquired in a run
exactly when one is released in it: an acquired handle is always released
before the program terminates. -/
theorem handle_released_on_all_paths (procEnv dotenvFile fs : Bindings) :
    countAcquired (runScript procEnv dotenvFile fs).2 =
      countReleased (runScript procEnv dotenvFile fs).2 ∧
    (Event.handleAcquired ∈ (runScript procEnv dotenvFile fs).2 ↔
      Event.handleReleased ∈ (runScript procEnv dotenvFile fs).2) := by
  cases h1 : lookup (load_dotenv procEnv dotenvFile)
      "GOOGLE_APPLICATION_CREDENTIALS" with
  | none => simp [runScript, h1, countAcquired, countReleased]
  | some path =>
    cases h2 : lookup fs path with
    | none => simp [runScript, h1, h2, countAcquired, countReleased]
    | some contents =>
      cases h3 : json_load contents with
      | none => simp [runScript, h1, h2, h3, countAcquired, countReleased]
      | some doc => simp [runScript, h1, h2, h3, countAcquired, countReleased]

theorem load_dotenv_nil (env : Bindings) : load_dotenv env [] = env := by
  simp [load_dotenv]

/-- Claim C8: `load_dotenv()` merges the `.env` file into the process
environment before the variable is read — the run equals a run whose
process environment is the merged one; for a name absent from the process
environment, the merged environment yields the `.env` file's value (so the
path may be supplied by a local `.env` file alone); and for a name already
present, the process-environment value takes precedence over the `.env`
value. -/
theorem dotenv_loaded_with_precedence (procEnv dotenvFile fs : Bindings) :
    runScript procEnv dotenvFile fs =
      runScript (load_dotenv procEnv dotenvFile) [] fs ∧
    (∀ k, lookup procEnv k = none →
        lookup (load_dotenv procEnv dotenvFile) k = lookup dotenvFile k) ∧
    (∀ k v, lookup procEnv k = some v →
        lookup (load_dotenv procEnv dotenvFile) k = some v) := by
  refine ⟨?_, ?_, ?_⟩
  · simp only [runScript, load_dotenv_nil]
  · intro k hk
    unfold load_dotenv
    rw [lookup_append_of_none _ hk, lookup_filter_isNone _ hk]
  · intro k v hk
    exact lookup_append_of_some _ hk

/-- Witness for C8 at a concrete input: the path supplied only by the
`.env` file is seen, and an existing process-environment value wins. -/
theorem dotenv_loaded_with_precedence_witness :
    lookup
        (load_dotenv [] [("GOOGLE_APPLICATION_CREDENTIALS", "from_dotenv")])
        "GOOGLE_APPLICATION_CREDENTIALS" = some "from_dotenv" ∧
    lookup
        (load_dotenv [("GOOGLE_APPLICATION_CREDENTIALS", "from_process")]
          [("GOOGLE_APPLICATION_CREDENTIALS", "from_dotenv")])
        "GOOGLE_APPLICATION_CREDENTIALS" = some "from_process" :=
  ⟨(dotenv_loaded_with_precedence []
      [("GOOGLE_APPLICATION_CREDENTIALS", "from_dotenv")] []).2.1
      "GOOGLE_APPLICATION_CREDENTIALS" rfl,
   (dotenv_loaded_with_precedence
      [("GOOGLE_APPLICATION_CREDENTIALS", "from_process")]
      [("GOOGLE_APPLICATION_CREDENTIALS", "from_dotenv")] []).2.2
      "GOOGLE_APPLICATION_CREDENTIALS" "from_process" rfl⟩

/-- Claim C9: the loader never requires the document to be a mapping: for
any contents that parse as a JSON value of any top-level type, the run
succeeds with that value and prints it, rather than failing with a
malformed-data error. -/
theorem non_mapping_top_level_accepted
    (procEnv dotenvFile fs : Bindings) (path contents : String) (doc : Json)
    (h1 : lookup (load_dotenv procEnv dotenvFile) credsVar = some path)
    (h2 : lookup fs path = some contents)
    (h3 : json_load contents = some doc) :
    (runScript procEnv dotenvFile fs).1 = .ok doc ∧
    Event.printed printLabel doc ∈ (runScript procEnv dotenvFile fs).2 := by
  simp only [credsVar] at h1
  constructor <;> simp [runScript, printLabel, h1, h2, h3]

/-- Witness for C9 at a concrete input whose top level is an array, not a
mapping. -/
theorem non_mapping_top_level_accepted_witness :
    (runScript [("GOOGLE_APPLICATION_CREDENTIALS", "arr.json")] []
        [("arr.json", "[1, 2]")]).1 = .ok (.arr [.num 1, .num 2]) ∧
    Event.printed printLabel (.arr [.num 1, .num 2]) ∈
      (runScript [("GOOGLE_APPLICATION_CREDENTIALS", "arr.json")] []
        [("arr.json", "[1, 2]")]).2 :=
  non_mapping_top_level_accepted _ _ _ "arr.json" "[1, 2]"
    (.arr [.num 1, .num 2]) rfl rfl rfl

/-- Claim C10: the run is deterministic — any two runs given the same
process environment, the same `.env` file and the same file contents
produce the same outcome and the same trace. -/
theorem run_deterministic (procEnv dotenvFile fs : Bindings)
    (out1 out2 : Except PyErr Json × List Event)
    (h1 : runScript procEnv dotenvFile fs = out1)
    (h2 : runScript procEnv dotenvFile fs = out2) : out1 = out2 :=
  h1.symm.trans h2

/-- Witness for C10 at a concrete input. -/
theorem run_deterministic_witness :
    ((.error .typeErrorNonePath, []) : Except PyErr Json × List Event) =
      ((.error .typeErrorNonePath, []) : Except PyErr Json × List Event) :=
  run_deterministic [] [] [] _ _ rfl rfl

end Script
